import Mathlib

/-!
Verification development for the libiocage repository core:
the puppet provisioning pipeline (`src/libioc/Provisioning/puppet.py`)
and the jail inventory engine (`src/libiocage/lib/Jails.py`).

Python strings are embedded as Lean `String`; where a claim needs to
reason about character structure we work on `String.data : List Char`.
Python built-in string operations (`str.startswith`, `str.split`) are
re-implemented on `List Char` so that every definition is executable
and every concrete instance can be settled by `decide`/`rfl`.
-/

set_option autoImplicit false
set_option maxRecDepth 100000

/-- `leadMatch pat s` decides whether the character list `pat` is a leading
segment of `s`.  This is the semantics of Python's `s.startswith(pat)`. -/
def leadMatch : List Char → List Char → Bool
  | [], _ => true
  | _ :: _, [] => false
  | a :: as, b :: bs => a == b && leadMatch as bs

/-- Python `s.startswith(pat)` on embedded strings. -/
def pyStartswith (s pat : String) : Bool :=
  leadMatch pat.data s.data

/-- `occursIn pat s` decides whether `pat` occurs as a contiguous substring
of `s` (Python's `pat in s`). -/
def occursInChars (pat : List Char) : List Char → Bool
  | [] => pat.isEmpty
  | c :: rest => leadMatch pat (c :: rest) || occursInChars pat rest

/-- Substring occurrence on embedded strings. -/
def occursIn (pat s : String) : Bool :=
  occursInChars pat.data s.data

/-- Python `s.split(sep)` for a one-character separator: the list of
(pieces between occurrences of `sep`), always non-empty, with empty pieces
kept (`"a//b" ↦ ["a","","b"]`, `"" ↦ [""]`, `"a/" ↦ ["a",""]`). -/
def splitChar (sep : Char) : List Char → List (List Char)
  | [] => [[]]
  | x :: xs =>
    if x = sep then [] :: splitChar sep xs
    else (x :: (splitChar sep xs).headD []) :: (splitChar sep xs).tail

/-- The segment of `s` strictly after the last occurrence of `sep`
(the whole of `s` when `sep` does not occur; `[]` when `s` ends in `sep`).
This is the claim-side characterisation of candidate-name derivation. -/
def afterLast (sep : Char) : List Char → List Char
  | [] => []
  | x :: xs =>
    if x = sep then afterLast sep xs
    else if sep ∈ xs then afterLast sep xs
    else x :: xs

/-! ## Control-source descriptor (`ControlRepoDefinition`, puppet.py lines 53-132)

The Python class subclasses `dict`; its constructor never stores a dict
item, so the dict payload stays empty (`dictKeys = []`).  The constructor
body binds a LOCAL variable `_pkgs` and never assigns `self._pkgs`, so the
instance attribute `_pkgs` is never set; we embed the attribute as an
`Option` that the constructor leaves at `none` (reading it raises
`AttributeError` in Python).  The `url`/`name` property plumbing is
embedded as plain field storage, matching the class-level annotations
`_url: str` / `_name: str` and the property docstrings. -/

structure ControlRepoDefinition where
  _url : String
  _name : String
  /-- instance attribute `_pkgs`; never assigned by `__init__`. -/
  _pkgs : Option (List String)
  /-- keys of the inherited dict payload; `__init__` never stores an item. -/
  dictKeys : List String

/-- `ControlRepoDefinition.url` property (line 85-87). -/
def ControlRepoDefinition.url (d : ControlRepoDefinition) : String :=
  d._url

/-- The value the constructor computes into its LOCAL variable `_pkgs`
(puppet.py lines 70-72).  Python semantics: `_pkgs = ['puppet6']`, then
`_pkgs += 'rubygem-r10k'` extends a list with an *iterable*, i.e. with the
characters of the string, each becoming a one-character string element. -/
def initPkgsLocalVar (url : String) : List String :=
  let pkgs := ["puppet6"]
  if !(pyStartswith url "file://" || pyStartswith url "/") then
    pkgs ++ "rubygem-r10k".data.map (fun c => String.mk [c])
  else
    pkgs

/-- `ControlRepoDefinition.__init__(name, url)` (lines 60-72): stores url and
name; computes `_pkgs` only into a local variable, so neither the instance
attribute `_pkgs` nor the dict payload is populated. -/
def ControlRepoDefinition.make (name url : String) : ControlRepoDefinition :=
  { _url := url, _name := name, _pkgs := none, dictKeys := [] }

/-- `ControlRepoDefinition.local` property (lines 74-78); named `isLocal`
because `local` is a Lean keyword. -/
def ControlRepoDefinition.isLocal (d : ControlRepoDefinition) : Bool :=
  if !(pyStartswith d.url "file://" || pyStartswith d.url "/") then false
  else true

/-- `ControlRepoDefinition.remote` property (lines 80-82). -/
def ControlRepoDefinition.remote (d : ControlRepoDefinition) : Bool :=
  !d.isLocal

/-- `ControlRepoDefinition.pkgs` property (lines 104-107): returns the
instance attribute `self._pkgs`; `none` models the `AttributeError` raised
because `__init__` never assigned it. -/
def ControlRepoDefinition.pkgs (d : ControlRepoDefinition) : Option (List String) :=
  d._pkgs

/-- `ControlRepoDefinition.generate_postinstall` (lines 109-132).  The
Python string literals are NOT f-strings, so `{self.url}` is literal text
in the output; the exact whitespace of the triple-quoted literals is
reproduced (literal braces written with \x7b/\x7d escapes). -/
def ControlRepoDefinition.generate_postinstall (d : ControlRepoDefinition) : String :=
  let postinstall := "#!/bin/sh\n        set -eu\n\n        "
  let postinstall :=
    if d.remote then
      postinstall ++
        "cat > /usr/local/etc/r10k/r10k.yml <EOF\n            ---\n            :source:\n                puppet:\n                    basedir: /usr/local/etc/puppet/environments\n                    remote: \x7bself.url\x7d\n            >EOF\n\n            r10k deploy environment -p\n\n            "
    else postinstall
  postinstall ++
    "\n        puppet apply /usr/local/etc/puppet/environments/manifests/site.pp\n        "

/-! ## Provisioning pipeline (`provision`, puppet.py lines 135-230)

The Python function is a generator that yields lifecycle events, mutates
external collaborators (filesystem via `git clone`, the jail's fstab, the
launch-script file, the package subsystem) and may raise.  We embed it as a
pure function from an environment (the collaborators' behaviour for this
run, including which external calls raise) and an initial filesystem state
to the triple (emitted event trace, final collaborator-call state, raised
error if any).  Collaborator mutations performed before an error are kept
in the returned state, as in Python. -/

/-- A Python exception value, identified only by a code. -/
inductive PyErr where
  | err (code : Nat)
deriving DecidableEq

/-- Lifecycle events the pipeline can yield. -/
inductive Event where
  | jailProvisioningBegin
  | jailProvisioningEnd
  | jailProvisioningFail (e : PyErr)
  | assetDownloadBegin
  | assetDownloadEnd
  | assetDownloadFail (e : PyErr)
  /-- an event forwarded verbatim from `pkg.fetch_and_install`. -/
  | pkgEvent (k : Nat)
deriving DecidableEq

/-- Is the event one of the two `fail` events? -/
def Event.isFail : Event → Bool
  | .jailProvisioningFail _ => true
  | .assetDownloadFail _ => true
  | _ => false

/-- Arguments of one `fstab.new_line` call (puppet.py lines 197-203). -/
structure MountLine where
  source : String
  destination : String
  options : String
  auto_create_destination : Bool
  replace : Bool
deriving DecidableEq

/-- Host filesystem state, as far as the pipeline observes/mutates it:
which paths are directories, and which path holds a clone of which url. -/
structure FS where
  dirs : List String
  cloned : List (String × String)
deriving DecidableEq

/-- `os.path.isdir(p)` (puppet.py line 185). -/
def FS.isdir (fs : FS) (p : String) : Bool :=
  fs.dirs.contains p

/-- Collaborator behaviour for one provisioning run.  The `…Err` fields are
oracles saying whether the corresponding external call raises (and with
what exception); `none` means the call succeeds. -/
structure Env where
  /-- `self.jail.dataset.name` (a ZFS dataset name such as
  `zroot/iocage/jails/myjail`). -/
  jailDatasetName : String
  /-- `self.source.name`. -/
  sourceName : String
  /-- `self.source` used as the repo url string. -/
  sourceUrl : String
  /-- `self.jail.abspath` (never read by the code: line 219 is not an
  f-string). -/
  jailAbspath : String
  /-- `zfs.get_or_create_dataset(name).mountpoint` (idempotent store). -/
  mountpointOf : String → String
  /-- does descriptor construction (lines 168-172) raise? -/
  constructErr : Option PyErr
  /-- does `git.Repo.clone_from` raise? -/
  cloneErr : Option PyErr
  /-- does `fstab.new_line` raise? -/
  newLineErr : Option PyErr
  /-- does `fstab.save` raise? -/
  saveErr : Option PyErr
  /-- does `pkg.fetch_and_install` raise (after emitting its events)? -/
  pkgErr : Option PyErr
  /-- payloads of the events `pkg.fetch_and_install` yields. -/
  pkgEvents : List Nat

/-- Log of the collaborator calls a run performed, plus the filesystem. -/
structure RunState where
  fs : FS
  /-- `(url, destination)` of each `git.Repo.clone_from` invocation. -/
  cloneCalls : List (String × String)
  /-- each `fstab.new_line` invocation. -/
  newLineCalls : List MountLine
  /-- did `fstab.save` complete? -/
  saved : Bool
  /-- `(path, content)` of each file written. -/
  writtenFiles : List (String × String)
  /-- `(packages, postinstall)` of each `pkg.fetch_and_install` call. -/
  pkgInstallCalls : List (List String × String)
deriving DecidableEq

/-- Embeds puppet.py lines 197-230: the fstab upsert + save, package-list
resolution, script write and delegation to `pkg.fetch_and_install`, given
the branch-computed `mount_source` and `mode`.  Errors from `new_line` and
`save` are UNGUARDED in the source (no enclosing `try`), so they propagate
with no event; the `try` at lines 211-230 wraps only the package phase.
Line 206 tests `"pkgs" in pluginDefinition.keys()` — membership in the
(empty) inherited dict payload, so the then-branch is unreachable.
Line 219 writes to the literal path `"{self.jail.abspath}/…"` (no f-string
prefix). -/
def provisionRest (env : Env) (pluginDefinition : ControlRepoDefinition)
    (tr : List Event) (st : RunState) (mount_source mode : String) :
    List Event × RunState × Option PyErr :=
  let line : MountLine :=
    { source := mount_source
      destination := "/usr/local/etc/puppet"
      options := mode
      auto_create_destination := true
      replace := true }
  let st := { st with newLineCalls := st.newLineCalls ++ [line] }
  match env.newLineErr with
  | some e => (tr, st, some e)
  | none =>
    match env.saveErr with
    | some e => (tr, st, some e)
    | none =>
      let st := { st with saved := true }
      let pkg_packages : List String :=
        if pluginDefinition.dictKeys.contains "pkgs" then
          (pluginDefinition.pkgs).getD []
        else []
      let postinstall_script := pluginDefinition.generate_postinstall
      let postinstall := "\x7bself.jail.abspath\x7d/launch-scripts/provision.sh"
      let st := { st with writtenFiles := st.writtenFiles ++ [(postinstall, postinstall_script)] }
      let st := { st with pkgInstallCalls := st.pkgInstallCalls ++ [(pkg_packages, postinstall)] }
      let tr := tr ++ env.pkgEvents.map Event.pkgEvent
      match env.pkgErr with
      | some e => (tr ++ [Event.jailProvisioningFail e], st, some e)
      | none => (tr, st, none)

/-- Embeds `provision` (puppet.py lines 135-230).  Yields
`JailProvisioning.begin`, then the asset-download sub-phase in a `try`
(fail + re-raise on error), then branches on `remote`: the remote branch
derives `plugin_dataset_name`, checks `os.path.isdir` on that DATASET NAME
(not the mountpoint) and clones into the mountpoint when the check is
false; the local branch passes `self.source` through.  Note the successful
path never yields a final `JailProvisioning` end event. -/
def provision (env : Env) (fs0 : FS) : List Event × RunState × Option PyErr :=
  let st0 : RunState :=
    { fs := fs0, cloneCalls := [], newLineCalls := [], saved := false
      writtenFiles := [], pkgInstallCalls := [] }
  let tr0 := [Event.jailProvisioningBegin, Event.assetDownloadBegin]
  match env.constructErr with
  | some e => (tr0 ++ [Event.assetDownloadFail e], st0, some e)
  | none =>
    let pluginDefinition := ControlRepoDefinition.make env.sourceName env.sourceUrl
    let tr1 := tr0 ++ [Event.assetDownloadEnd]
    if pluginDefinition.remote then
      let plugin_dataset_name := env.jailDatasetName ++ "/puppet"
      let mountpoint := env.mountpointOf plugin_dataset_name
      if fs0.isdir plugin_dataset_name then
        provisionRest env pluginDefinition tr1 st0 mountpoint "rw"
      else
        let st1 := { st0 with cloneCalls := st0.cloneCalls ++ [(pluginDefinition.url, mountpoint)] }
        match env.cloneErr with
        | some e => (tr1, st1, some e)
        | none =>
          let st2 :=
            { st1 with
              fs := { dirs := st1.fs.dirs ++ [mountpoint]
                      cloned := st1.fs.cloned ++ [(mountpoint, pluginDefinition.url)] } }
          provisionRest env pluginDefinition tr1 st2 mountpoint "rw"
    else
      provisionRest env pluginDefinition tr1 st0 env.sourceUrl "ro"

/-- The first error, if any, raised from the unguarded middle section of
`provision` (dataset/clone and fstab steps, lines 178-204), for an
environment and initial filesystem. -/
def middleErr (env : Env) (fs : FS) : Option PyErr :=
  let d := ControlRepoDefinition.make env.sourceName env.sourceUrl
  if d.remote && !(fs.isdir (env.jailDatasetName ++ "/puppet")) then
    match env.cloneErr with
    | some e => some e
    | none =>
      match env.newLineErr with
      | some e => some e
      | none => env.saveErr
  else
    match env.newLineErr with
    | some e => some e
    | none => env.saveErr

/-! ## Jail inventory engine (`src/libiocage/lib/Jails.py`)

`JailsGenerator.__iter__` walks the children of the jails root dataset,
derives a candidate name from the last path segment of the dataset name
(`dataset.name.split("/").pop()`), rejects candidates via
`filters.match_key("name", jail_name)` without loading them, loads
survivors into a full jail record and yields those matching
`filters.match_jail(jail)`.  The filter engine
(`libiocage.lib.JailFilter.Terms`) is not part of src/, so it is modelled
from the spec below. -/

/-- `JailsGenerator.JAIL_KEYS` (Jails.py lines 12-18): keys resolved from
the jail object rather than its configuration. -/
def JAIL_KEYS : List String :=
  ["jid", "name", "running", "ip4.addr", "ip6.addr"]

/-- A child of the jails root dataset, identified by its dataset name. -/
structure JailDataset where
  name : String
deriving DecidableEq

/-- A fully loaded jail record: runtime attributes (resolved directly from
the jail object) and configuration key/value pairs. -/
structure JailRecord where
  runtime : List (String × String)
  config : List (String × String)
deriving DecidableEq

/-- Modelled from the spec: a single key/value equality predicate of the
filter engine (`libiocage.lib.JailFilter` is not in src/); spec §3
"FilterTerm — a single key/operator/value predicate", restricted to the
equality operator which is all the claims exercise. -/
structure FilterTerm where
  key : String
  value : String
deriving DecidableEq

/-- Modelled from the spec: attribute resolution of the filter engine —
"a term matching the runtime key set is resolved against the jail's direct
attributes; any other key is resolved against the jail's configuration
mapping. Unknown keys resolve to no match" (spec §4.1). -/
def JailRecord.resolve (j : JailRecord) (key : String) : Option String :=
  if JAIL_KEYS.contains key then j.runtime.lookup key
  else j.config.lookup key

/-- Modelled from the spec: `Terms.match_jail` — logical AND of all terms,
each compared against its resolved attribute (spec §4.1 `match_all`). -/
def match_jail (terms : List FilterTerm) (j : JailRecord) : Bool :=
  terms.all fun t => j.resolve t.key == some t.value

/-- Modelled from the spec: `Terms.match_key(key, value)` — the cheap
single-key shortcut that only understands the given key: every term on
that key must equal the candidate value; terms on other keys are ignored
(they are re-checked later by `match_jail`) (spec §4.1). -/
def match_key (terms : List FilterTerm) (key value : String) : Bool :=
  terms.all fun t => if t.key == key then t.value == value else true

/-- `JailsGenerator._get_name_from_jail_dataset` (Jails.py lines 87-92):
`dataset.name.split("/").pop()`.  `pop()` on an empty list would raise,
hence the `Option`; `split` never returns an empty list. -/
def _get_name_from_jail_dataset (dsName : String) : Option String :=
  ((splitChar '/' dsName.data).getLast?).map fun l => String.mk l

/-- The candidate name as the iterator uses it (total form of
`_get_name_from_jail_dataset`; justified by `splitChar` never being
empty). -/
def getNameD (dsName : String) : String :=
  String.mk ((splitChar '/' dsName.data).getLastD [])

/-- Collaborator state for the inventory engine: the children of the jails
root dataset in the store's listing order, and the record a candidate name
loads into (`_load_jail_from_dataset` constructs the jail from the derived
name). -/
structure JailsEnv where
  children : List JailDataset
  load : String → JailRecord

/-- Embeds the loop body of `JailsGenerator.__iter__` (Jails.py lines
35-47) over a list of datasets.  Returns the yielded records in order,
paired with the derived names of every candidate for which a full jail
record WAS constructed (the instrumentation the pre-filter claim needs). -/
def JailsGenerator.iterAux (env : JailsEnv) (filters : List FilterTerm) :
    List JailDataset → List JailRecord × List String
  | [] => ([], [])
  | d :: rest =>
    let jail_name := getNameD d.name
    if match_key filters "name" jail_name then
      let jail := env.load jail_name
      let r := JailsGenerator.iterAux env filters rest
      (if match_jail filters jail then jail :: r.1 else r.1, jail_name :: r.2)
    else
      JailsGenerator.iterAux env filters rest

/-- `JailsGenerator.__iter__` (lazy enumeration), instrumented with the
list of loaded candidate names. -/
def JailsGenerator.iter (env : JailsEnv) (filters : List FilterTerm) :
    List JailRecord × List String :=
  JailsGenerator.iterAux env filters env.children

/-- `Jails.__iter__` (Jails.py lines 103-104): the eager enumeration,
`list(JailsGenerator.__iter__(self))` — the lazy scan drained into a
materialized ordered sequence. -/
def Jails.iter (env : JailsEnv) (filters : List FilterTerm) : List JailRecord :=
  (JailsGenerator.iter env filters).1

/-- Follows the spec's words (§4.2 `enumerate_all`): for each child of the
jails root in listing order, derive the candidate name as the last path
segment of its identifier, apply the name pre-filter, load survivors and
keep exactly those matching the complete filter set, materialized into an
ordered sequence. -/
def enumerateAllSpec (env : JailsEnv) (filters : List FilterTerm) : List JailRecord :=
  env.children.filterMap fun d =>
    let n := String.mk (afterLast '/' d.name.data)
    if match_key filters "name" n then
      let j := env.load n
      if match_jail filters j then some j else none
    else none

/-! ## Concrete run fixtures -/

/-- An initial filesystem with no directories. -/
def fsEmpty : FS :=
  { dirs := [], cloned := [] }

/-- A run against a local control source where every collaborator call
succeeds. -/
def envLocalOk : Env :=
  { jailDatasetName := "zroot/iocage/jails/myjail"
    sourceName := "my-env"
    sourceUrl := "/srv/puppet-env"
    jailAbspath := "/iocage/jails/myjail/root"
    mountpointOf := fun _ => "/iocage/jails/myjail/root/puppet"
    constructErr := none
    cloneErr := none
    newLineErr := none
    saveErr := none
    pkgErr := none
    pkgEvents := [0, 1] }

/-- Same run, but `fstab.save` raises. -/
def envSaveFail : Env :=
  { envLocalOk with saveErr := some (PyErr.err 7) }

/-- Same run, but `pkg.fetch_and_install` raises after its events. -/
def envPkgFail : Env :=
  { envLocalOk with pkgErr := some (PyErr.err 9) }

/-- A run against a remote control source where every collaborator call
succeeds. -/
def envRemoteOk : Env :=
  { envLocalOk with sourceName := "env", sourceUrl := "https://git.example/env.git" }

/-- The filesystem after a first fully successful remote run. -/
def fsAfterFirstRun : FS :=
  (provision envRemoteOk fsEmpty).2.1.fs

/-- The remote descriptor the fixture run constructs. -/
def crdRemoteGit : ControlRepoDefinition :=
  ControlRepoDefinition.make "env" "https://git.example/env.git"

/-- A remote descriptor for the package-set claim. -/
def crdRemoteX : ControlRepoDefinition :=
  ControlRepoDefinition.make "x" "http://example.com/repo.git"

/-- Inventory fixture: three jails `web1`, `web2`, `db1` whose records
carry their name as a runtime attribute. -/
def jailsEnvDemo : JailsEnv :=
  { children :=
      [ { name := "zroot/iocage/jails/web1" }
        , { name := "zroot/iocage/jails/web2" }
        , { name := "zroot/iocage/jails/db1" } ]
    load := fun n => { runtime := [("name", n), ("running", "yes")], config := [] } }

/-! ## Helper lemmas -/

theorem splitChar_ne_nil (sep : Char) : ∀ s : List Char, splitChar sep s ≠ []
  | [] => by simp [splitChar]
  | x :: xs => by
    by_cases hx : x = sep <;> simp [splitChar, hx]

theorem splitChar_length (sep : Char) :
    ∀ s : List Char, (splitChar sep s).length = s.count sep + 1
  | [] => by simp [splitChar]
  | x :: xs => by
    by_cases hx : x = sep
    · simp [splitChar, hx, splitChar_length sep xs, List.count_cons]
    · have hne := splitChar_ne_nil sep xs
      have hlen := splitChar_length sep xs
      simp [splitChar, hx, List.count_cons]
      omega

theorem afterLast_of_not_mem (sep : Char) :
    ∀ s : List Char, sep ∉ s → afterLast sep s = s
  | [], _ => rfl
  | x :: xs, h => by
    have hx : ¬x = sep := fun he => h (he ▸ List.mem_cons_self x xs)
    have hxs : sep ∉ xs := fun hm => h (List.mem_cons_of_mem _ hm)
    simp [afterLast, hx, hxs]

theorem getLast?_splitChar (sep : Char) :
    ∀ s : List Char, (splitChar sep s).getLast? = some (afterLast sep s)
  | [] => by simp [splitChar, afterLast]
  | x :: xs => by
    rcases hsp : splitChar sep xs with _ | ⟨h, t⟩
    · exact absurd hsp (splitChar_ne_nil sep xs)
    have ih := getLast?_splitChar sep xs
    by_cases hx : x = sep
    · have hstep : splitChar sep (x :: xs) = [] :: h :: t := by
        simp [splitChar, hx, hsp]
      rw [hstep, List.getLast?_cons_cons, ← hsp, ih]
      simp [afterLast, hx]
    · have hlen := splitChar_length sep xs
      rw [hsp] at hlen
      by_cases hm : sep ∈ xs
      · have hcount : 0 < xs.count sep := List.count_pos_iff.mpr hm
        rcases t with _ | ⟨y, t'⟩
        · simp at hlen; omega
        · have hstep : splitChar sep (x :: xs) = (x :: h) :: y :: t' := by
            simp [splitChar, hx, hsp]
          rw [hstep, List.getLast?_cons_cons]
          rw [hsp, List.getLast?_cons_cons] at ih
          rw [ih]
          simp [afterLast, hx, hm]
      · have hcount : xs.count sep = 0 := List.count_eq_zero.mpr hm
        rcases t with _ | ⟨y, t'⟩
        · have hstep : splitChar sep (x :: xs) = [x :: h] := by
            simp [splitChar, hx, hsp]
          rw [hstep]
          rw [hsp] at ih
          simp only [List.getLast?_singleton, Option.some.injEq] at ih
          rw [afterLast_of_not_mem sep xs hm] at ih
          simp [afterLast, hx, hm, ih]
        · simp [hcount] at hlen

theorem afterLast_concat_sep (sep : Char) :
    ∀ t : List Char, afterLast sep (t ++ [sep]) = []
  | [] => by simp [afterLast]
  | x :: t => by
    by_cases hx : x = sep
    · simp [afterLast, hx, afterLast_concat_sep sep t]
    · have hm : sep ∈ t ++ [sep] := by simp
      simp [afterLast, hx, hm, afterLast_concat_sep sep t]

theorem getNameD_eq (s : String) :
    getNameD s = String.mk (afterLast '/' s.data) := by
  unfold getNameD
  rw [List.getLastD_eq_getLast?, getLast?_splitChar]
  rfl

theorem match_key_name_single (x n : String) :
    match_key [⟨"name", x⟩] "name" n = (x == n) := by
  simp [match_key]

theorem iterAux_loaded_names (env : JailsEnv) (x : String) :
    ∀ ds : List JailDataset,
      ((JailsGenerator.iterAux env [⟨"name", x⟩] ds).2.all fun n => n == x) = true
  | [] => rfl
  | d :: rest => by
    have ih := iterAux_loaded_names env x rest
    simp only [JailsGenerator.iterAux, match_key_name_single]
    by_cases h : x = getNameD d.name
    · simp [← h, ih]
    · simp [beq_iff_eq, h, ih]

theorem iterAux_yield_filter (env : JailsEnv) (F : List FilterTerm) :
    ∀ ds : List JailDataset,
      (JailsGenerator.iterAux env F ds).1 =
        ((JailsGenerator.iterAux env F ds).2.map env.load).filter (match_jail F)
  | [] => rfl
  | d :: rest => by
    have ih := iterAux_yield_filter env F rest
    simp only [JailsGenerator.iterAux]
    by_cases h : match_key F "name" (getNameD d.name) = true
    · simp [h, ih, List.filter_cons]
    · simp [h, ih]

theorem iterAux_filterMap (env : JailsEnv) (F : List FilterTerm) :
    ∀ ds : List JailDataset,
      (JailsGenerator.iterAux env F ds).1 =
        ds.filterMap fun d =>
          if match_key F "name" (getNameD d.name) then
            (if match_jail F (env.load (getNameD d.name)) then
              some (env.load (getNameD d.name)) else none)
          else none
  | [] => rfl
  | d :: rest => by
    have ih := iterAux_filterMap env F rest
    simp only [JailsGenerator.iterAux, List.filterMap_cons]
    by_cases h : match_key F "name" (getNameD d.name) = true
    · by_cases hj : match_jail F (env.load (getNameD d.name)) = true <;>
        simp [h, hj, ih]
    · simp [h, ih]

theorem provisionRest_pkgErr (env : Env) (d : ControlRepoDefinition)
    (tr : List Event) (st : RunState) (ms mode : String) (e : PyErr)
    (h1 : env.newLineErr = none) (h2 : env.saveErr = none)
    (h3 : env.pkgErr = some e) :
    (provisionRest env d tr st ms mode).2.2 = some e ∧
      Event.jailProvisioningFail e ∈ (provisionRest env d tr st ms mode).1 := by
  simp [provisionRest, h1, h2, h3]

theorem provisionRest_fstabErr (env : Env) (d : ControlRepoDefinition)
    (tr : List Event) (st : RunState) (ms mode : String) (e : PyErr)
    (h : (match env.newLineErr with
          | some e => some e
          | none => env.saveErr) = some e) :
    (provisionRest env d tr st ms mode).2.2 = some e ∧
      (provisionRest env d tr st ms mode).1 = tr := by
  rcases hn : env.newLineErr with _ | e'
  · rw [hn] at h
    simp only [] at h
    simp [provisionRest, hn, h]
  · rw [hn] at h
    simp only [Option.some.injEq] at h
    simp [provisionRest, hn, h]

theorem provisionRest_calls (env : Env) (d : ControlRepoDefinition)
    (tr : List Event) (st : RunState) (ms mode : String)
    (h1 : env.newLineErr = none) (h2 : env.saveErr = none) :
    (provisionRest env d tr st ms mode).2.1.newLineCalls =
        st.newLineCalls ++ [⟨ms, "/usr/local/etc/puppet", mode, true, true⟩] ∧
      (provisionRest env d tr st ms mode).2.1.saved = true := by
  rcases hp : env.pkgErr with _ | e <;> simp [provisionRest, h1, h2, hp]

theorem middleErr_none_parts (env : Env) (fs : FS) :
    middleErr env fs = none →
      env.newLineErr = none ∧ env.saveErr = none ∧
        ((ControlRepoDefinition.make env.sourceName env.sourceUrl).remote = true →
          fs.isdir (env.jailDatasetName ++ "/puppet") = false →
          env.cloneErr = none) := by
  unfold middleErr
  rcases hn : env.newLineErr with _ | e1 <;>
    rcases hs : env.saveErr with _ | e2 <;>
      rcases hcl : env.cloneErr with _ | e3 <;>
        by_cases hcond :
          ((ControlRepoDefinition.make env.sourceName env.sourceUrl).remote &&
            !(fs.isdir (env.jailDatasetName ++ "/puppet"))) = true <;>
          simp [hcond, hn, hs, hcl] <;>
          first
            | (intro h1 h2; rw [h1, h2] at hcond; simp at hcond)
            | (simp at hcond; exact hcond)

theorem middleErr_some_parts (env : Env) (fs : FS) (e : PyErr) :
    middleErr env fs = some e →
      (((ControlRepoDefinition.make env.sourceName env.sourceUrl).remote &&
          !(fs.isdir (env.jailDatasetName ++ "/puppet"))) = true ∧
        env.cloneErr = some e) ∨
      ((((ControlRepoDefinition.make env.sourceName env.sourceUrl).remote &&
          !(fs.isdir (env.jailDatasetName ++ "/puppet"))) = true →
          env.cloneErr = none) ∧
        (match env.newLineErr with
          | some e' => some e'
          | none => env.saveErr) = some e) := by
  unfold middleErr
  rcases hcl : env.cloneErr with _ | e3 <;>
    by_cases hcond :
      ((ControlRepoDefinition.make env.sourceName env.sourceUrl).remote &&
        !(fs.isdir (env.jailDatasetName ++ "/puppet"))) = true <;>
      simp [hcond, hcl]

/-! ## Claims -/

/-- Claim C1 (code_bug evidence): a fully successful provisioning run
(no collaborator call raises) produces a trace that starts with the
`JailProvisioning` begin event but never contains the final
`JailProvisioning` end event — the code's success path simply returns
after `pkg.fetch_and_install`, contradicting the begin/end/fail envelope
it uses everywhere else. -/
theorem C1_missing_final_end_event :
    (provision envLocalOk fsEmpty).2.2 = none ∧
    (provision envLocalOk fsEmpty).1.head? = some Event.jailProvisioningBegin ∧
    Event.jailProvisioningEnd ∉ (provision envLocalOk fsEmpty).1 := by
  decide

/-- Claim C2 (counterexample): when `fstab.save` raises, the error
propagates to the caller while the emitted trace contains no fail event at
all — refuting "no phase-local error propagates to the caller without a
corresponding fail event having been emitted first". -/
theorem C2_counterexample_unwrapped_save_error :
    (provision envSaveFail fsEmpty).2.2 = some (PyErr.err 7) ∧
    (provision envSaveFail fsEmpty).1.filter Event.isFail = [] := by
  decide

/-- Claim C2 (amended): errors raised during descriptor construction (the
asset-download phase) and during the package-install phase are wrapped
into a fail lifecycle event carrying the original error and re-raised;
errors raised in the unguarded clone / mount-table section propagate to
the caller with no fail event emitted. -/
theorem C2_fail_wrapping_amended (env : Env) (fs : FS) :
    (∀ e : PyErr, env.constructErr = some e →
      (provision env fs).2.2 = some e ∧
        Event.assetDownloadFail e ∈ (provision env fs).1) ∧
    (env.constructErr = none → middleErr env fs = none →
      ∀ e : PyErr, env.pkgErr = some e →
        (provision env fs).2.2 = some e ∧
          Event.jailProvisioningFail e ∈ (provision env fs).1) ∧
    (env.constructErr = none →
      ∀ e : PyErr, middleErr env fs = some e →
        (provision env fs).2.2 = some e ∧
          (provision env fs).1.filter Event.isFail = []) := by
  refine ⟨?_, ?_, ?_⟩
  · intro e h
    simp [provision, h]
  · intro hc hm e hp
    obtain ⟨hn, hs, hcl⟩ := middleErr_none_parts env fs hm
    by_cases hr : (ControlRepoDefinition.make env.sourceName env.sourceUrl).remote = true
    · by_cases hd : fs.isdir (env.jailDatasetName ++ "/puppet") = true
      · simp only [provision, hc]
        rw [if_pos hr, if_pos hd]
        exact provisionRest_pkgErr env _ _ _ _ _ e hn hs hp
      · have hclnone := hcl hr (by simpa using hd)
        simp only [provision, hc]
        rw [if_pos hr, if_neg hd]
        simp only [hclnone]
        exact provisionRest_pkgErr env _ _ _ _ _ e hn hs hp
    · simp only [provision, hc]
      rw [if_neg hr]
      exact provisionRest_pkgErr env _ _ _ _ _ e hn hs hp
  · intro hc e hm
    rcases middleErr_some_parts env fs e hm with ⟨hcond, hcle⟩ | ⟨hclnone, hfst⟩
    · obtain ⟨hr, hd⟩ :
          (ControlRepoDefinition.make env.sourceName env.sourceUrl).remote = true ∧
            fs.isdir (env.jailDatasetName ++ "/puppet") = false := by
        simpa [Bool.and_eq_true, Bool.not_eq_true'] using hcond
      have hd' : ¬fs.isdir (env.jailDatasetName ++ "/puppet") = true := by
        simp [hd]
      simp only [provision, hc]
      rw [if_pos hr, if_neg hd']
      simp only [hcle]
      exact ⟨by simp, by decide⟩
    · by_cases hr : (ControlRepoDefinition.make env.sourceName env.sourceUrl).remote = true
      · by_cases hd : fs.isdir (env.jailDatasetName ++ "/puppet") = true
        · simp only [provision, hc]
          rw [if_pos hr, if_pos hd]
          obtain ⟨h1, h2⟩ := provisionRest_fstabErr env _ _ _ _ _ e hfst
          rw [h1, h2]
          exact ⟨rfl, by decide⟩
        · have hclnone' := hclnone (by simp [hr, hd])
          simp only [provision, hc]
          rw [if_pos hr, if_neg hd]
          simp only [hclnone']
          obtain ⟨h1, h2⟩ := provisionRest_fstabErr env _ _ _ _ _ e hfst
          rw [h1, h2]
          exact ⟨rfl, by decide⟩
      · simp only [provision, hc]
        rw [if_neg hr]
        obtain ⟨h1, h2⟩ := provisionRest_fstabErr env _ _ _ _ _ e hfst
        rw [h1, h2]
        exact ⟨rfl, by decide⟩

/-- Claim C2 witness: a run whose package-install phase raises emits the
`JailProvisioning` fail event and re-raises the error. -/
theorem C2_fail_wrapping_amended_witness :
    (provision envPkgFail fsEmpty).2.2 = some (PyErr.err 9) ∧
      Event.jailProvisioningFail (PyErr.err 9) ∈ (provision envPkgFail fsEmpty).1 :=
  (C2_fail_wrapping_amended envPkgFail fsEmpty).2.1 rfl (by decide) (PyErr.err 9) rfl

/-- Claim C3 (code_bug evidence): for a remote `(name, url)`, the
descriptor's `pkgs` property does not contain `'puppet6'` — it raises
`AttributeError` (embedded as `none`), because `__init__` binds the
package list to a local variable; and even that local list never contains
`'rubygem-r10k'` as an element: `_pkgs += 'rubygem-r10k'` extends the list
with the thirteen single-character strings of the package name. -/
theorem C3_pkgs_attribute_never_assigned :
    crdRemoteX.remote = true ∧
    crdRemoteX.pkgs = none ∧
    initPkgsLocalVar "http://example.com/repo.git" =
      ["puppet6", "r", "u", "b", "y", "g", "e", "m", "-", "r", "1", "0", "k"] ∧
    "rubygem-r10k" ∉ initPkgsLocalVar "http://example.com/repo.git" := by
  decide

/-- Claim C4 (code_bug evidence): a fully successful remote run delegates
the EMPTY package list to `pkg.fetch_and_install` — line 206 tests
`"pkgs" in pluginDefinition.keys()`, membership in the never-populated
inherited dict, which is always false — so the fetch-tool package is never
installed (the claim expects `['puppet6', 'rubygem-r10k']`). -/
theorem C4_delegated_package_list_empty :
    (provision envRemoteOk fsEmpty).2.2 = none ∧
    crdRemoteGit.remote = true ∧
    (provision envRemoteOk fsEmpty).2.1.pkgInstallCalls =
      [([], "\x7bself.jail.abspath\x7d/launch-scripts/provision.sh")] := by
  decide

/-- Claim C5 (code_bug evidence): the post-install script of a remote
descriptor does start with the strict-mode header and does contain the
fetch-tool block and the apply command, but the block's remote target is
the LITERAL text `{self.url}` — the triple-quoted literal is not an
f-string — and the descriptor's url never appears in the script. -/
theorem C5_postinstall_literal_placeholder :
    crdRemoteGit.remote = true ∧
    pyStartswith crdRemoteGit.generate_postinstall "#!/bin/sh\n        set -eu" = true ∧
    occursIn "puppet apply /usr/local/etc/puppet/environments/manifests/site.pp"
      crdRemoteGit.generate_postinstall = true ∧
    occursIn "remote: \x7bself.url\x7d" crdRemoteGit.generate_postinstall = true ∧
    occursIn "https://git.example/env.git" crdRemoteGit.generate_postinstall = false := by
  decide

/-- Claim C6 (code_bug evidence): after a first fully successful remote
run (one clone into the dataset's mountpoint), a second run of the same
jail and url invokes the fetch client AGAIN — the guard tests
`os.path.isdir` on the ZFS dataset NAME `zroot/iocage/jails/myjail/puppet`,
which the clone into the mountpoint never creates, instead of the
mountpoint directory that does exist. -/
theorem C6_second_run_clones_again :
    (provision envRemoteOk fsEmpty).2.2 = none ∧
    (provision envRemoteOk fsEmpty).2.1.cloneCalls =
      [("https://git.example/env.git", "/iocage/jails/myjail/root/puppet")] ∧
    fsAfterFirstRun.isdir "/iocage/jails/myjail/root/puppet" = true ∧
    fsAfterFirstRun.isdir "zroot/iocage/jails/myjail/puppet" = false ∧
    (provision envRemoteOk fsAfterFirstRun).2.1.cloneCalls =
      [("https://git.example/env.git", "/iocage/jails/myjail/root/puppet")] := by
  decide

/-- Claim C7: every run that reaches the mount step (construction and the
clone/mount collaborator calls succeed) upserts exactly one mount entry —
destination `/usr/local/etc/puppet`, `auto_create_destination`, `replace`
— whose options/source follow the descriptor's locality: `rw` with the
cloned dataset's mountpoint when remote, `ro` with the original url when
local; and then persists the mount table. -/
theorem C7_single_mount_upsert (env : Env) (fs : FS)
    (hc : env.constructErr = none) (hm : middleErr env fs = none) :
    (provision env fs).2.1.newLineCalls =
      [⟨if (ControlRepoDefinition.make env.sourceName env.sourceUrl).remote then
          env.mountpointOf (env.jailDatasetName ++ "/puppet")
        else env.sourceUrl,
        "/usr/local/etc/puppet",
        if (ControlRepoDefinition.make env.sourceName env.sourceUrl).remote then "rw"
        else "ro",
        true, true⟩] ∧
    (provision env fs).2.1.saved = true := by
  obtain ⟨hn, hs, hcl⟩ := middleErr_none_parts env fs hm
  by_cases hr : (ControlRepoDefinition.make env.sourceName env.sourceUrl).remote = true
  · by_cases hd : fs.isdir (env.jailDatasetName ++ "/puppet") = true
    · simp only [provision, hc]
      rw [if_pos hr, if_pos hd]
      simpa [hr] using provisionRest_calls env _ _ _ _ _ hn hs
    · have hclnone := hcl hr (by simpa using hd)
      simp only [provision, hc]
      rw [if_pos hr, if_neg hd]
      simp only [hclnone]
      simpa [hr] using provisionRest_calls env _ _ _ _ _ hn hs
  · simp only [provision, hc]
    rw [if_neg hr]
    simpa [hr] using provisionRest_calls env _ _ _ _ _ hn hs

/-- Claim C7 witness: the fixture remote run upserts exactly the
read-write entry for the cloned mountpoint and persists the table. -/
theorem C7_single_mount_upsert_witness :
    (provision envRemoteOk fsEmpty).2.1.newLineCalls =
      [⟨"/iocage/jails/myjail/root/puppet", "/usr/local/etc/puppet", "rw", true, true⟩] ∧
    (provision envRemoteOk fsEmpty).2.1.saved = true := by
  have h := C7_single_mount_upsert envRemoteOk fsEmpty rfl (by decide)
  simpa [envRemoteOk, envLocalOk,
    show (ControlRepoDefinition.make envRemoteOk.sourceName envRemoteOk.sourceUrl).remote = true
      from by decide] using h

/-- Claim C8: with the single-term filter `{name: x}`, the lazy
enumeration constructs a full jail record only for candidates whose
derived name is `x` (first conjunct: every loaded candidate name equals
`x`), and the yielded records are exactly the loaded ones that match the
complete filter set, in scan order (second conjunct). -/
theorem C8_name_prefilter_soundness (x : String) (env : JailsEnv) :
    ((JailsGenerator.iter env [⟨"name", x⟩]).2.all fun n => n == x) = true ∧
    (JailsGenerator.iter env [⟨"name", x⟩]).1 =
      ((JailsGenerator.iter env [⟨"name", x⟩]).2.map env.load).filter
        (match_jail [⟨"name", x⟩]) :=
  ⟨iterAux_loaded_names env x env.children,
   iterAux_yield_filter env [⟨"name", x⟩] env.children⟩

/-- Claim C9: for every filter set and dataset-store state, the eager
enumeration (`Jails.__iter__`, which drains `JailsGenerator.__iter__`
into a list) returns exactly the lazy enumeration's records in the same
order, and both coincide with the spec-side description of
`enumerate_all` (name from last path segment, name pre-filter, load,
full-filter re-check, materialized in child order). -/
theorem C9_eager_equals_lazy (env : JailsEnv) (F : List FilterTerm) :
    Jails.iter env F = (JailsGenerator.iter env F).1 ∧
    Jails.iter env F = enumerateAllSpec env F := by
  refine ⟨rfl, ?_⟩
  unfold Jails.iter JailsGenerator.iter enumerateAllSpec
  rw [iterAux_filterMap]
  simp only [← getNameD_eq]

/-- Claim C10: candidate-name derivation (`dataset.name.split("/").pop()`)
is total: it always returns the substring after the last `'/'` — the
whole identifier when it contains no `'/'`, and the empty string when it
ends with `'/'`. -/
theorem C10_name_derivation_total (s : String) :
    _get_name_from_jail_dataset s = some (String.mk (afterLast '/' s.data)) ∧
    ('/' ∉ s.data → _get_name_from_jail_dataset s = some s) ∧
    (∀ t : List Char, s.data = t ++ ['/'] → _get_name_from_jail_dataset s = some "") := by
  have h1 : _get_name_from_jail_dataset s = some (String.mk (afterLast '/' s.data)) := by
    unfold _get_name_from_jail_dataset
    rw [getLast?_splitChar]
    rfl
  refine ⟨h1, ?_, ?_⟩
  · intro h
    rw [h1, afterLast_of_not_mem _ _ h]
  · intro t ht
    rw [h1, ht, afterLast_concat_sep]

/-- Claim C10 witness: a slash-free identifier derives to itself and an
identifier ending in a slash derives to the empty string. -/
theorem C10_name_derivation_total_witness :
    _get_name_from_jail_dataset "abc" = some "abc" ∧
    _get_name_from_jail_dataset "a/" = some "" :=
  ⟨(C10_name_derivation_total "abc").2.1 (by decide),
   (C10_name_derivation_total "a/").2.2 ['a'] (by decide)⟩
